import Mathlib

/-!
# RCH::Undenormal — scoped protection against denormal numbers

A shallow embedding of `include/rchundenormal.h`.  The only state the class
touches is the MXCSR control/status register, an `unsigned int` of 32 bits.
The register is the state that is threaded through the constructor and the
destructor; a register value is a natural number below `2 ^ 32`.
-/

set_option linter.dupNamespace false

namespace RCH

/-! ## C integer model -/

/-- Number of values of a 32-bit `unsigned int`. -/
def UINT_RANGE : Nat := 4294967296

/-- Conversion of a C `int` operand to `unsigned int`, as done by the usual
arithmetic conversions when the other operand of `|` or `&` is unsigned. -/
def toUnsigned (i : Int) : Nat := (i % 4294967296).toNat

/-! ## The MXCSR intrinsics of `<xmmintrin.h>` -/

/-- Read of the MXCSR register (`unsigned int _mm_getcsr (void)`). -/
def _mm_getcsr (csr : Nat) : Nat := csr

/-- Write of the MXCSR register (`void _mm_setcsr (unsigned int)`): the new
register content is the argument, an `unsigned int`. -/
def _mm_setcsr (value : Nat) (_csr : Nat) : Nat := value % UINT_RANGE

/-- Modelled from the spec: the mask constant `_MM_FLUSH_ZERO_MASK` of the
platform header, which is not part of the repository; it isolates the
flush-to-zero bit. -/
def _MM_FLUSH_ZERO_MASK : Nat := 0x8000

/-- Modelled from the spec: the platform header's "on" mode value for
flush-to-zero (absent from the repository). -/
def _MM_FLUSH_ZERO_ON : Nat := 0x8000

/-- Modelled from the spec: the platform header's "off" mode value for
flush-to-zero (absent from the repository). -/
def _MM_FLUSH_ZERO_OFF : Nat := 0x0000

/-- Modelled from the spec: the mask constant `_MM_DENORMALS_ZERO_MASK` of the
platform header, which is not part of the repository; it isolates the
denormals-are-zero bit. -/
def _MM_DENORMALS_ZERO_MASK : Nat := 0x0040

/-- Modelled from the spec: the platform header's "on" mode value for
denormals-are-zero (absent from the repository). -/
def _MM_DENORMALS_ZERO_ON : Nat := 0x0040

/-- Modelled from the spec: the platform header's "off" mode value for
denormals-are-zero (absent from the repository). -/
def _MM_DENORMALS_ZERO_OFF : Nat := 0x0000

/-- Bitwise complement of an `unsigned int`. -/
def notU32 (x : Nat) : Nat := 4294967295 ^^^ (x % UINT_RANGE)

/-- Modelled from the spec: the helper macro `_MM_SET_FLUSH_ZERO_MODE(mode)` of
the platform header (absent from the repository).  It reads the register,
clears the bit of the flush-to-zero mask, ORs in the mode value and writes the
register back. -/
def _MM_SET_FLUSH_ZERO_MODE (mode : Nat) (csr : Nat) : Nat :=
  _mm_setcsr ((_mm_getcsr csr &&& notU32 _MM_FLUSH_ZERO_MASK) ||| mode) csr

/-- Modelled from the spec: the helper macro `_MM_SET_DENORMALS_ZERO_MODE(mode)`
of the platform header (absent from the repository).  It reads the register,
clears the bit of the denormals-are-zero mask, ORs in the mode value and writes
the register back. -/
def _MM_SET_DENORMALS_ZERO_MODE (mode : Nat) (csr : Nat) : Nat :=
  _mm_setcsr ((_mm_getcsr csr &&& notU32 _MM_DENORMALS_ZERO_MASK) ||| mode) csr

/-- The build environment: which of the platform macros tested by the
`#if defined (...)` lines of the class are defined. -/
structure Macros where
  /-- The macro `_MM_SET_FLUSH_ZERO_MODE` is defined. -/
  SET_FLUSH_ZERO_MODE : Bool
  /-- The macro `_MM_FLUSH_ZERO_ON` is defined. -/
  FLUSH_ZERO_ON : Bool
  /-- The macro `_MM_FLUSH_ZERO_OFF` is defined. -/
  FLUSH_ZERO_OFF : Bool
  /-- The macro `_MM_SET_DENORMALS_ZERO_MODE` is defined. -/
  SET_DENORMALS_ZERO_MODE : Bool
  /-- The macro `_MM_DENORMALS_ZERO_ON` is defined. -/
  DENORMALS_ZERO_ON : Bool
  /-- The macro `_MM_DENORMALS_ZERO_OFF` is defined. -/
  DENORMALS_ZERO_OFF : Bool
  deriving DecidableEq, Repr

/-- The environment in which none of the macros is defined: every `#if` of the
class takes its `#else` branch. -/
def Macros.none : Macros := ⟨false, false, false, false, false, false⟩

/-- The environment in which all of the macros are defined: every `#if` of the
class takes its first branch. -/
def Macros.all : Macros := ⟨true, true, true, true, true, true⟩

namespace Undenormal

/-! ## The class `RCH::Undenormal` -/

/-- Mask to switch FLUSH TO ZERO mode (`const int maskFTZ = 0x8000`). -/
def maskFTZ : Int := 0x8000

/-- Mask to switch DENORMALS ARE ZERO mode (`const int maskDAZ = 0x0040`). -/
def maskDAZ : Int := 0x0040

/-- The constructor `Undenormal ()`: start protection against denormal
numbers.  The register is passed in and the register left behind is returned. -/
def Undenormal (m : Macros) (csr : Nat) : Nat :=
  -- Set FLUSH TO ZERO mode to ON state
  let csr1 :=
    if m.SET_FLUSH_ZERO_MODE && m.FLUSH_ZERO_ON then
      _MM_SET_FLUSH_ZERO_MODE _MM_FLUSH_ZERO_ON csr
    else
      _mm_setcsr (_mm_getcsr csr ||| toUnsigned maskFTZ) csr
  -- Set DENORMALS ARE ZERO mode to ON state
  if m.SET_DENORMALS_ZERO_MODE && m.DENORMALS_ZERO_ON then
    _MM_SET_DENORMALS_ZERO_MODE _MM_DENORMALS_ZERO_ON csr1
  else
    _mm_setcsr (_mm_getcsr csr1 ||| toUnsigned maskDAZ) csr1

/-- The destructor `~Undenormal ()`: stop protection against denormal numbers.
The register is passed in and the register left behind is returned. -/
def dtor (m : Macros) (csr : Nat) : Nat :=
  -- Set FLUSH TO ZERO mode back to OFF state
  let csr1 :=
    if m.SET_FLUSH_ZERO_MODE && m.FLUSH_ZERO_OFF then
      _MM_SET_FLUSH_ZERO_MODE _MM_FLUSH_ZERO_OFF csr
    else
      _mm_setcsr (_mm_getcsr csr &&& toUnsigned (~~~ maskFTZ)) csr
  -- Set DENORMALS ARE ZERO mode back to OFF state
  if m.SET_DENORMALS_ZERO_MODE && m.DENORMALS_ZERO_OFF then
    _MM_SET_DENORMALS_ZERO_MODE _MM_DENORMALS_ZERO_OFF csr1
  else
    _mm_setcsr (_mm_getcsr csr1 &&& toUnsigned (~~~ maskDAZ)) csr1

end Undenormal

/-! ## Reading the two controlled bits -/

/-- The flush-to-zero bit (mask `0x8000`) reads back as "on". -/
def ftzOn (csr : Nat) : Prop := csr &&& 0x8000 = 0x8000

/-- The denormals-are-zero bit (mask `0x0040`) reads back as "on". -/
def dazOn (csr : Nat) : Prop := csr &&& 0x0040 = 0x0040

/-- The flush-to-zero bit (mask `0x8000`) reads back as "off". -/
def ftzOff (csr : Nat) : Prop := csr &&& 0x8000 = 0

/-- The denormals-are-zero bit (mask `0x0040`) reads back as "off". -/
def dazOff (csr : Nat) : Prop := csr &&& 0x0040 = 0

instance (csr : Nat) : Decidable (ftzOn csr) := by unfold ftzOn; infer_instance
instance (csr : Nat) : Decidable (dazOn csr) := by unfold dazOn; infer_instance
instance (csr : Nat) : Decidable (ftzOff csr) := by unfold ftzOff; infer_instance
instance (csr : Nat) : Decidable (dazOff csr) := by unfold dazOff; infer_instance

/-! ## Sequences of guard operations on one register -/

/-- One operation of a guard on the register: its construction or its
destruction. -/
inductive GuardOp where
  /-- The constructor `Undenormal ()` runs. -/
  | construct
  /-- The destructor `~Undenormal ()` runs. -/
  | destruct
  deriving DecidableEq, Repr

/-- The register left by one guard operation. -/
def GuardOp.apply (m : Macros) : GuardOp → Nat → Nat
  | GuardOp.construct, csr => Undenormal.Undenormal m csr
  | GuardOp.destruct, csr => Undenormal.dtor m csr

/-- The register left by a sequence of guard operations, run from left to
right on the initial register `csr`. -/
def runOps (m : Macros) : List GuardOp → Nat → Nat
  | [], csr => csr
  | op :: ops, csr => runOps m ops (op.apply m csr)

/-! ## Bit-level facts about the constants -/

theorem testBit_0x8000 (i : Nat) : Nat.testBit 0x8000 i = decide (i = 15) := by
  have h : (0x8000 : Nat) = 2 ^ 15 := by norm_num
  rw [h, Nat.testBit_two_pow]
  simp [eq_comm]

theorem testBit_0x0040 (i : Nat) : Nat.testBit 0x0040 i = decide (i = 6) := by
  have h : (0x0040 : Nat) = 2 ^ 6 := by norm_num
  rw [h, Nat.testBit_two_pow]
  simp [eq_comm]

theorem testBit_0xFFFFFFFF (i : Nat) : Nat.testBit 4294967295 i = decide (i < 32) := by
  have h : (4294967295 : Nat) = 2 ^ 32 - 1 := by norm_num
  rw [h, Nat.testBit_two_pow_sub_one]

theorem toUnsigned_maskFTZ : toUnsigned Undenormal.maskFTZ = 0x8000 := by decide

theorem toUnsigned_maskDAZ : toUnsigned Undenormal.maskDAZ = 0x0040 := by decide

theorem toUnsigned_not_maskFTZ :
    toUnsigned (~~~ Undenormal.maskFTZ) = 4294967295 ^^^ 0x8000 := by decide

theorem toUnsigned_not_maskDAZ :
    toUnsigned (~~~ Undenormal.maskDAZ) = 4294967295 ^^^ 0x0040 := by decide

theorem UINT_RANGE_eq : UINT_RANGE = 2 ^ 32 := by norm_num [UINT_RANGE]

/-! ## Bit-level description of the register operations -/

theorem testBit_mm_setcsr (v csr i : Nat) :
    (_mm_setcsr v csr).testBit i = (decide (i < 32) && v.testBit i) := by
  rw [_mm_setcsr, UINT_RANGE_eq, Nat.testBit_mod_two_pow]

theorem testBit_notU32 (x i : Nat) :
    (notU32 x).testBit i = (decide (i < 32) && !x.testBit i) := by
  rw [notU32, UINT_RANGE_eq, Nat.testBit_xor, testBit_0xFFFFFFFF, Nat.testBit_mod_two_pow]
  generalize decide (i < 32) = a
  generalize x.testBit i = b
  cases a <;> cases b <;> rfl

/-- Both ways of switching flush-to-zero on set bit 15 and keep the rest. -/
theorem testBit_ftz_on_helper (csr i : Nat) :
    (_MM_SET_FLUSH_ZERO_MODE _MM_FLUSH_ZERO_ON csr).testBit i
      = (decide (i < 32) && (csr.testBit i || decide (i = 15))) := by
  rw [_MM_SET_FLUSH_ZERO_MODE, testBit_mm_setcsr, Nat.testBit_or, Nat.testBit_and,
    testBit_notU32, _mm_getcsr, _MM_FLUSH_ZERO_MASK, _MM_FLUSH_ZERO_ON, testBit_0x8000]
  generalize decide (i < 32) = a
  generalize csr.testBit i = b
  generalize decide (i = 15) = c
  cases a <;> cases b <;> cases c <;> rfl

theorem testBit_ftz_on_raw (csr i : Nat) :
    (_mm_setcsr (_mm_getcsr csr ||| toUnsigned Undenormal.maskFTZ) csr).testBit i
      = (decide (i < 32) && (csr.testBit i || decide (i = 15))) := by
  rw [testBit_mm_setcsr, Nat.testBit_or, _mm_getcsr, toUnsigned_maskFTZ, testBit_0x8000]

theorem testBit_daz_on_helper (csr i : Nat) :
    (_MM_SET_DENORMALS_ZERO_MODE _MM_DENORMALS_ZERO_ON csr).testBit i
      = (decide (i < 32) && (csr.testBit i || decide (i = 6))) := by
  rw [_MM_SET_DENORMALS_ZERO_MODE, testBit_mm_setcsr, Nat.testBit_or, Nat.testBit_and,
    testBit_notU32, _mm_getcsr, _MM_DENORMALS_ZERO_MASK, _MM_DENORMALS_ZERO_ON, testBit_0x0040]
  generalize decide (i < 32) = a
  generalize csr.testBit i = b
  generalize decide (i = 6) = c
  cases a <;> cases b <;> cases c <;> rfl

theorem testBit_daz_on_raw (csr i : Nat) :
    (_mm_setcsr (_mm_getcsr csr ||| toUnsigned Undenormal.maskDAZ) csr).testBit i
      = (decide (i < 32) && (csr.testBit i || decide (i = 6))) := by
  rw [testBit_mm_setcsr, Nat.testBit_or, _mm_getcsr, toUnsigned_maskDAZ, testBit_0x0040]

/-- Both ways of switching flush-to-zero off clear bit 15 and keep the rest. -/
theorem testBit_ftz_off_helper (csr i : Nat) :
    (_MM_SET_FLUSH_ZERO_MODE _MM_FLUSH_ZERO_OFF csr).testBit i
      = (decide (i < 32) && (csr.testBit i && !decide (i = 15))) := by
  rw [_MM_SET_FLUSH_ZERO_MODE, testBit_mm_setcsr, Nat.testBit_or, Nat.testBit_and,
    testBit_notU32, _mm_getcsr, _MM_FLUSH_ZERO_MASK, _MM_FLUSH_ZERO_OFF, testBit_0x8000,
    Nat.zero_testBit]
  generalize decide (i < 32) = a
  generalize csr.testBit i = b
  generalize decide (i = 15) = c
  cases a <;> cases b <;> cases c <;> rfl

theorem testBit_ftz_off_raw (csr i : Nat) :
    (_mm_setcsr (_mm_getcsr csr &&& toUnsigned (~~~ Undenormal.maskFTZ)) csr).testBit i
      = (decide (i < 32) && (csr.testBit i && !decide (i = 15))) := by
  rw [testBit_mm_setcsr, Nat.testBit_and, _mm_getcsr, toUnsigned_not_maskFTZ,
    Nat.testBit_xor, testBit_0xFFFFFFFF, testBit_0x8000]
  generalize decide (i < 32) = a
  generalize csr.testBit i = b
  generalize decide (i = 15) = c
  cases a <;> cases b <;> cases c <;> rfl

theorem testBit_daz_off_helper (csr i : Nat) :
    (_MM_SET_DENORMALS_ZERO_MODE _MM_DENORMALS_ZERO_OFF csr).testBit i
      = (decide (i < 32) && (csr.testBit i && !decide (i = 6))) := by
  rw [_MM_SET_DENORMALS_ZERO_MODE, testBit_mm_setcsr, Nat.testBit_or, Nat.testBit_and,
    testBit_notU32, _mm_getcsr, _MM_DENORMALS_ZERO_MASK, _MM_DENORMALS_ZERO_OFF,
    testBit_0x0040, Nat.zero_testBit]
  generalize decide (i < 32) = a
  generalize csr.testBit i = b
  generalize decide (i = 6) = c
  cases a <;> cases b <;> cases c <;> rfl

theorem testBit_daz_off_raw (csr i : Nat) :
    (_mm_setcsr (_mm_getcsr csr &&& toUnsigned (~~~ Undenormal.maskDAZ)) csr).testBit i
      = (decide (i < 32) && (csr.testBit i && !decide (i = 6))) := by
  rw [testBit_mm_setcsr, Nat.testBit_and, _mm_getcsr, toUnsigned_not_maskDAZ,
    Nat.testBit_xor, testBit_0xFFFFFFFF, testBit_0x0040]
  generalize decide (i < 32) = a
  generalize csr.testBit i = b
  generalize decide (i = 6) = c
  cases a <;> cases b <;> cases c <;> rfl

/-- Every bit of the register left by the constructor, in every build
environment. -/
theorem testBit_ctor (m : Macros) (csr i : Nat) :
    (Undenormal.Undenormal m csr).testBit i
      = (decide (i < 32) && (csr.testBit i || decide (i = 15) || decide (i = 6))) := by
  unfold Undenormal.Undenormal
  split_ifs <;>
    simp only [testBit_ftz_on_helper, testBit_ftz_on_raw, testBit_daz_on_helper,
      testBit_daz_on_raw] <;>
    generalize decide (i < 32) = a <;>
    generalize csr.testBit i = b <;>
    generalize decide (i = 15) = c <;>
    generalize decide (i = 6) = d <;>
    cases a <;> cases b <;> cases c <;> cases d <;> rfl

/-- Every bit of the register left by the destructor, in every build
environment. -/
theorem testBit_dtor (m : Macros) (csr i : Nat) :
    (Undenormal.dtor m csr).testBit i
      = (decide (i < 32) && (csr.testBit i && !decide (i = 15) && !decide (i = 6))) := by
  unfold Undenormal.dtor
  split_ifs <;>
    simp only [testBit_ftz_off_helper, testBit_ftz_off_raw, testBit_daz_off_helper,
      testBit_daz_off_raw] <;>
    generalize decide (i < 32) = a <;>
    generalize csr.testBit i = b <;>
    generalize decide (i = 15) = c <;>
    generalize decide (i = 6) = d <;>
    cases a <;> cases b <;> cases c <;> cases d <;> rfl

/-! ## Derived facts shared by the theorems below -/

theorem ftzOn_iff (csr : Nat) : ftzOn csr ↔ csr.testBit 15 = true := by
  unfold ftzOn
  constructor
  · intro h
    have h1 := congrArg (fun x => Nat.testBit x 15) h
    simpa [Nat.testBit_and, testBit_0x8000] using h1
  · intro h
    apply Nat.eq_of_testBit_eq
    intro i
    rw [Nat.testBit_and, testBit_0x8000]
    by_cases hi : i = 15
    · subst hi; simp [h]
    · simp [hi]

theorem dazOn_iff (csr : Nat) : dazOn csr ↔ csr.testBit 6 = true := by
  unfold dazOn
  constructor
  · intro h
    have h1 := congrArg (fun x => Nat.testBit x 6) h
    simpa [Nat.testBit_and, testBit_0x0040] using h1
  · intro h
    apply Nat.eq_of_testBit_eq
    intro i
    rw [Nat.testBit_and, testBit_0x0040]
    by_cases hi : i = 6
    · subst hi; simp [h]
    · simp [hi]

theorem ftzOff_iff (csr : Nat) : ftzOff csr ↔ csr.testBit 15 = false := by
  unfold ftzOff
  constructor
  · intro h
    have h1 := congrArg (fun x => Nat.testBit x 15) h
    simpa [Nat.testBit_and, testBit_0x8000] using h1
  · intro h
    apply Nat.eq_of_testBit_eq
    intro i
    rw [Nat.testBit_and, testBit_0x8000, Nat.zero_testBit]
    by_cases hi : i = 15
    · subst hi; simp [h]
    · simp [hi]

theorem dazOff_iff (csr : Nat) : dazOff csr ↔ csr.testBit 6 = false := by
  unfold dazOff
  constructor
  · intro h
    have h1 := congrArg (fun x => Nat.testBit x 6) h
    simpa [Nat.testBit_and, testBit_0x0040] using h1
  · intro h
    apply Nat.eq_of_testBit_eq
    intro i
    rw [Nat.testBit_and, testBit_0x0040, Nat.zero_testBit]
    by_cases hi : i = 6
    · subst hi; simp [h]
    · simp [hi]

/-- A register value has no bit at or above position 32. -/
theorem testBit_of_lt (r i : Nat) (hr : r < 2 ^ 32) (hi : ¬ i < 32) :
    r.testBit i = false := by
  apply Nat.testBit_lt_two_pow
  have h : 2 ^ 32 ≤ 2 ^ i := Nat.pow_le_pow_right (by decide) (by omega)
  omega

/-- The constructor leaves a 32-bit register value. -/
theorem ctor_lt (m : Macros) (csr : Nat) : Undenormal.Undenormal m csr < 2 ^ 32 := by
  apply Nat.lt_pow_two_of_testBit
  intro i hi
  rw [testBit_ctor]
  have h : ¬ i < 32 := by omega
  simp [h]

/-- The destructor leaves a 32-bit register value. -/
theorem dtor_lt (m : Macros) (csr : Nat) : Undenormal.dtor m csr < 2 ^ 32 := by
  apply Nat.lt_pow_two_of_testBit
  intro i hi
  rw [testBit_dtor]
  have h : ¬ i < 32 := by omega
  simp [h]

theorem ctor_ftzOn (m : Macros) (csr : Nat) : ftzOn (Undenormal.Undenormal m csr) := by
  rw [ftzOn_iff, testBit_ctor]; simp

theorem ctor_dazOn (m : Macros) (csr : Nat) : dazOn (Undenormal.Undenormal m csr) := by
  rw [dazOn_iff, testBit_ctor]; simp

theorem dtor_ftzOff (m : Macros) (csr : Nat) : ftzOff (Undenormal.dtor m csr) := by
  rw [ftzOff_iff, testBit_dtor]; simp

theorem dtor_dazOff (m : Macros) (csr : Nat) : dazOff (Undenormal.dtor m csr) := by
  rw [dazOff_iff, testBit_dtor]; simp

/-- Closed form of the constructor on a 32-bit register value. -/
theorem ctor_closed (m : Macros) (r : Nat) (hr : r < 2 ^ 32) :
    Undenormal.Undenormal m r = r ||| 0x8000 ||| 0x0040 := by
  apply Nat.eq_of_testBit_eq
  intro i
  rw [testBit_ctor, Nat.testBit_or, Nat.testBit_or, testBit_0x8000, testBit_0x0040]
  by_cases hi : i < 32
  · simp [hi]
  · have h1 : i ≠ 15 := by omega
    have h2 : i ≠ 6 := by omega
    simp [hi, h1, h2, testBit_of_lt r i hr hi]

/-- Bits of the 32-bit complement of a mask, written as a subtraction. -/
theorem testBit_compl_0x8000 (i : Nat) :
    Nat.testBit (2 ^ 32 - 1 - 0x8000) i = (decide (i < 32) && !decide (i = 15)) := by
  have h : (2 ^ 32 - 1 - 0x8000 : Nat) = 4294967295 ^^^ 0x8000 := by decide
  rw [h, Nat.testBit_xor, testBit_0xFFFFFFFF, testBit_0x8000]
  by_cases hi : i < 32
  · simp [hi]
  · have h1 : i ≠ 15 := by omega
    simp [hi, h1]

theorem testBit_compl_0x0040 (i : Nat) :
    Nat.testBit (2 ^ 32 - 1 - 0x0040) i = (decide (i < 32) && !decide (i = 6)) := by
  have h : (2 ^ 32 - 1 - 0x0040 : Nat) = 4294967295 ^^^ 0x0040 := by decide
  rw [h, Nat.testBit_xor, testBit_0xFFFFFFFF, testBit_0x0040]
  by_cases hi : i < 32
  · simp [hi]
  · have h1 : i ≠ 6 := by omega
    simp [hi, h1]

/-- Closed form of the destructor on a 32-bit register value. -/
theorem dtor_closed (m : Macros) (r : Nat) :
    Undenormal.dtor m r = r &&& (2 ^ 32 - 1 - 0x8000) &&& (2 ^ 32 - 1 - 0x0040) := by
  apply Nat.eq_of_testBit_eq
  intro i
  rw [testBit_dtor, Nat.testBit_and, Nat.testBit_and, testBit_compl_0x8000,
    testBit_compl_0x0040]
  by_cases hi : i < 32
  · simp [hi]
  · simp [hi]

/-- Bits other than 15 and 6 survive the constructor. -/
theorem ctor_frame (m : Macros) (r : Nat) (hr : r < 2 ^ 32) (i : Nat)
    (h15 : i ≠ 15) (h6 : i ≠ 6) :
    (Undenormal.Undenormal m r).testBit i = r.testBit i := by
  rw [testBit_ctor]
  by_cases hi : i < 32
  · simp [hi, h15, h6]
  · simp [hi, testBit_of_lt r i hr hi]

/-- Bits other than 15 and 6 survive the destructor. -/
theorem dtor_frame (m : Macros) (r : Nat) (hr : r < 2 ^ 32) (i : Nat)
    (h15 : i ≠ 15) (h6 : i ≠ 6) :
    (Undenormal.dtor m r).testBit i = r.testBit i := by
  rw [testBit_dtor]
  by_cases hi : i < 32
  · simp [hi, h15, h6]
  · simp [hi, testBit_of_lt r i hr hi]

/-! ## Evaluation on the power-on default `0x1F80` and on the all-ones register -/

theorem ctor_default_raw : Undenormal.Undenormal Macros.none 0x1F80 = 0x9FC0 := by decide

theorem ctor_default_all : Undenormal.Undenormal Macros.all 0x1F80 = 0x9FC0 := by decide

theorem dtor_all_ones_raw : Undenormal.dtor Macros.none 0xFFFFFFFF = 0xFFFF7FBF := by decide

theorem dtor_all_ones_all : Undenormal.dtor Macros.all 0xFFFFFFFF = 0xFFFF7FBF := by decide

/-! ## Construction and destruction: the two controlled bits -/

/-- C1: in every build environment and for every register value `r` (so for
every 32-bit one), the register left by the constructor has the flush-to-zero
bit (mask `0x8000`) and the denormals-are-zero bit (mask `0x0040`) set,
whatever these bits were in `r`. -/
theorem C1_ctor_sets_both_bits (m : Macros) (r : Nat) :
    ftzOn (Undenormal.Undenormal m r) ∧ dazOn (Undenormal.Undenormal m r) :=
  ⟨ctor_ftzOn m r, ctor_dazOn m r⟩

/-- Scenario 1 on the default register `0x1F80`, which has both bits off:
after construction both bits are on, by C1. -/
theorem C1_ctor_sets_both_bits_witness :
    (ftzOff 0x1F80 ∧ dazOff 0x1F80) ∧
    ftzOn (Undenormal.Undenormal Macros.none 0x1F80) ∧
    dazOn (Undenormal.Undenormal Macros.none 0x1F80) :=
  ⟨⟨by decide, by decide⟩, C1_ctor_sets_both_bits Macros.none 0x1F80⟩

/-- C2: in every build environment and for every register value `r`, the
register left by the destructor has the flush-to-zero bit and the
denormals-are-zero bit clear; and when both bits are on in `r` before the guard
is constructed, they are on after construction and off after destruction. -/
theorem C2_dtor_clears_both_bits (m : Macros) (r : Nat) :
    (ftzOff (Undenormal.dtor m r) ∧ dazOff (Undenormal.dtor m r)) ∧
    (ftzOn r → dazOn r →
      (ftzOn (Undenormal.Undenormal m r) ∧ dazOn (Undenormal.Undenormal m r)) ∧
      (ftzOff (Undenormal.dtor m (Undenormal.Undenormal m r)) ∧
        dazOff (Undenormal.dtor m (Undenormal.Undenormal m r)))) :=
  ⟨⟨dtor_ftzOff m r, dtor_dazOff m r⟩, fun _ _ =>
    ⟨⟨ctor_ftzOn m r, ctor_dazOn m r⟩, ⟨dtor_ftzOff m _, dtor_dazOff m _⟩⟩⟩

/-- Scenario 2 on the register `0x9FC0`, which has both bits on: the
hypotheses of C2 hold there and its conclusion is obtained from C2. -/
theorem C2_dtor_clears_both_bits_witness :
    (ftzOn 0x9FC0 ∧ dazOn 0x9FC0) ∧
    (ftzOff (Undenormal.dtor Macros.all 0x9FC0) ∧ dazOff (Undenormal.dtor Macros.all 0x9FC0)) ∧
    (ftzOn (Undenormal.Undenormal Macros.all 0x9FC0) ∧
      dazOn (Undenormal.Undenormal Macros.all 0x9FC0)) ∧
    (ftzOff (Undenormal.dtor Macros.all (Undenormal.Undenormal Macros.all 0x9FC0)) ∧
      dazOff (Undenormal.dtor Macros.all (Undenormal.Undenormal Macros.all 0x9FC0))) :=
  ⟨⟨by decide, by decide⟩, (C2_dtor_clears_both_bits Macros.all 0x9FC0).1,
    (C2_dtor_clears_both_bits Macros.all 0x9FC0).2 (by decide) (by decide)⟩

/-- C3: for every 32-bit register value `r`, the register read after a paired
construction and destruction agrees with `r` on every bit other than bit 15
(mask `0x8000`) and bit 6 (mask `0x0040`); bits 16..31 are among them.  Said
with a mask: the two registers agree under `0xFFFF7FBF`. -/
theorem C3_roundtrip_keeps_other_bits (m : Macros) (r : Nat) (hr : r < 2 ^ 32) :
    (∀ i : Nat, i ≠ 15 → i ≠ 6 →
      (Undenormal.dtor m (Undenormal.Undenormal m r)).testBit i = r.testBit i) ∧
    Undenormal.dtor m (Undenormal.Undenormal m r) &&& 0xFFFF7FBF = r &&& 0xFFFF7FBF := by
  have hbits : ∀ i : Nat, i ≠ 15 → i ≠ 6 →
      (Undenormal.dtor m (Undenormal.Undenormal m r)).testBit i = r.testBit i := by
    intro i h15 h6
    rw [dtor_frame m _ (ctor_lt m r) i h15 h6, ctor_frame m r hr i h15 h6]
  refine ⟨hbits, ?_⟩
  apply Nat.eq_of_testBit_eq
  intro i
  have hmask : (0xFFFF7FBF : Nat) = 4294967295 ^^^ 0x8000 ^^^ 0x0040 := by decide
  rw [Nat.testBit_and, Nat.testBit_and, hmask, Nat.testBit_xor, Nat.testBit_xor,
    testBit_0xFFFFFFFF, testBit_0x8000, testBit_0x0040]
  by_cases h15 : i = 15
  · subst h15; simp
  · by_cases h6 : i = 6
    · subst h6; simp
    · rw [hbits i h15 h6]

/-- The round trip of C3 on `0xFFFF9F80`, a register with bits 16..31 all set:
bit 31 and everything under the mask `0xFFFF7FBF` is as before. -/
theorem C3_roundtrip_keeps_other_bits_witness :
    (0xFFFF9F80 : Nat) < 2 ^ 32 ∧
    (Undenormal.dtor Macros.none (Undenormal.Undenormal Macros.none 0xFFFF9F80)).testBit 31
      = Nat.testBit 0xFFFF9F80 31 ∧
    Undenormal.dtor Macros.none (Undenormal.Undenormal Macros.none 0xFFFF9F80) &&& 0xFFFF7FBF
      = 0xFFFF9F80 &&& 0xFFFF7FBF :=
  ⟨by decide,
    (C3_roundtrip_keeps_other_bits Macros.none 0xFFFF9F80 (by decide)).1 31
      (by decide) (by decide),
    (C3_roundtrip_keeps_other_bits Macros.none 0xFFFF9F80 (by decide)).2⟩

/-- C4 fails as stated: on `0x9FC0`, where both bits are on, a construction
followed by the destruction leaves `0x1F80`, so the two bits are not back at
the values they had before construction. -/
theorem C4_restore_counterexample :
    ¬ (Undenormal.dtor Macros.none (Undenormal.Undenormal Macros.none 0x9FC0) &&& 0x8000
          = 0x9FC0 &&& 0x8000 ∧
       Undenormal.dtor Macros.none (Undenormal.Undenormal Macros.none 0x9FC0) &&& 0x0040
          = 0x9FC0 &&& 0x0040) := by
  decide

/-- C4 amended: in every build environment and for every register value `r`,
constructing a guard on `r` and then destroying it leaves the flush-to-zero and
denormals-are-zero bits off; each of the two bits is therefore back at the value
it had in `r` exactly when it was off in `r`. -/
theorem C4_pair_leaves_bits_off (m : Macros) (r : Nat) :
    (ftzOff (Undenormal.dtor m (Undenormal.Undenormal m r)) ∧
      dazOff (Undenormal.dtor m (Undenormal.Undenormal m r))) ∧
    (Undenormal.dtor m (Undenormal.Undenormal m r) &&& 0x8000 = r &&& 0x8000 ↔ ftzOff r) ∧
    (Undenormal.dtor m (Undenormal.Undenormal m r) &&& 0x0040 = r &&& 0x0040 ↔ dazOff r) := by
  have hf : Undenormal.dtor m (Undenormal.Undenormal m r) &&& 0x8000 = 0 := dtor_ftzOff m _
  have hd : Undenormal.dtor m (Undenormal.Undenormal m r) &&& 0x0040 = 0 := dtor_dazOff m _
  refine ⟨⟨hf, hd⟩, ?_, ?_⟩
  · rw [hf]; unfold ftzOff; exact eq_comm
  · rw [hd]; unfold dazOff; exact eq_comm

/-! ## Nested guards -/

/-- C5 fails as stated: starting from the default register `0x1F80`, in the
sequence construct A, construct B, destruct B, destruct A the two bits are not
on at every point between the construction of A and its destruction, because
the destruction of B has already switched them off. -/
theorem C5_nested_region_counterexample :
    ¬ ((ftzOn (Undenormal.Undenormal Macros.none 0x1F80) ∧
          dazOn (Undenormal.Undenormal Macros.none 0x1F80)) ∧
       (ftzOn (Undenormal.Undenormal Macros.none (Undenormal.Undenormal Macros.none 0x1F80)) ∧
          dazOn (Undenormal.Undenormal Macros.none (Undenormal.Undenormal Macros.none 0x1F80))) ∧
       (ftzOn (Undenormal.dtor Macros.none
            (Undenormal.Undenormal Macros.none (Undenormal.Undenormal Macros.none 0x1F80))) ∧
          dazOn (Undenormal.dtor Macros.none
            (Undenormal.Undenormal Macros.none (Undenormal.Undenormal Macros.none 0x1F80)))) ∧
       (ftzOff (Undenormal.dtor Macros.none (Undenormal.dtor Macros.none
            (Undenormal.Undenormal Macros.none (Undenormal.Undenormal Macros.none 0x1F80)))) ∧
          dazOff (Undenormal.dtor Macros.none (Undenormal.dtor Macros.none
            (Undenormal.Undenormal Macros.none (Undenormal.Undenormal Macros.none 0x1F80)))))) := by
  decide

/-- C5 amended: in every build environment and for every initial register
value, in the sequence construct A, construct B, destruct B, destruct A the two
controlled bits are on after the construction of A and after the construction
of B, off after the destruction of B, and off after the destruction of A. -/
theorem C5_nested_sequence (m : Macros) (r : Nat) :
    (ftzOn (Undenormal.Undenormal m r) ∧ dazOn (Undenormal.Undenormal m r)) ∧
    (ftzOn (Undenormal.Undenormal m (Undenormal.Undenormal m r)) ∧
      dazOn (Undenormal.Undenormal m (Undenormal.Undenormal m r))) ∧
    (ftzOff (Undenormal.dtor m (Undenormal.Undenormal m (Undenormal.Undenormal m r))) ∧
      dazOff (Undenormal.dtor m (Undenormal.Undenormal m (Undenormal.Undenormal m r)))) ∧
    (ftzOff (Undenormal.dtor m
        (Undenormal.dtor m (Undenormal.Undenormal m (Undenormal.Undenormal m r)))) ∧
      dazOff (Undenormal.dtor m
        (Undenormal.dtor m (Undenormal.Undenormal m (Undenormal.Undenormal m r))))) :=
  ⟨⟨ctor_ftzOn m _, ctor_dazOn m _⟩, ⟨ctor_ftzOn m _, ctor_dazOn m _⟩,
    ⟨dtor_ftzOff m _, dtor_dazOff m _⟩, ⟨dtor_ftzOff m _, dtor_dazOff m _⟩⟩

/-- C6: in every build environment and for every initial register value, in the
sequence construct A, construct B, destruct B the two controlled bits are
already off after the destruction of B, before the destruction of A runs. -/
theorem C6_inner_dtor_clears (m : Macros) (r : Nat) :
    ftzOff (Undenormal.dtor m (Undenormal.Undenormal m (Undenormal.Undenormal m r))) ∧
    dazOff (Undenormal.dtor m (Undenormal.Undenormal m (Undenormal.Undenormal m r))) :=
  ⟨dtor_ftzOff m _, dtor_dazOff m _⟩

/-! ## Exact register contents -/

/-- C7: in every build environment and for every 32-bit register value `r`, the
register after construction is exactly `r ||| 0x8000 ||| 0x0040`, and every bit
other than bit 15 and bit 6 is as in `r`. -/
theorem C7_ctor_is_or (m : Macros) (r : Nat) (hr : r < 2 ^ 32) :
    Undenormal.Undenormal m r = r ||| 0x8000 ||| 0x0040 ∧
    ∀ i : Nat, i ≠ 15 → i ≠ 6 → (Undenormal.Undenormal m r).testBit i = r.testBit i :=
  ⟨ctor_closed m r hr, fun i h15 h6 => ctor_frame m r hr i h15 h6⟩

/-- C7 on the default register `0x1F80`: construction gives `0x1F80 ||| 0x8000
||| 0x0040`, and bit 7 is untouched. -/
theorem C7_ctor_is_or_witness :
    (0x1F80 : Nat) < 2 ^ 32 ∧
    Undenormal.Undenormal Macros.all 0x1F80 = 0x1F80 ||| 0x8000 ||| 0x0040 ∧
    (Undenormal.Undenormal Macros.all 0x1F80).testBit 7 = Nat.testBit 0x1F80 7 :=
  ⟨by decide, (C7_ctor_is_or Macros.all 0x1F80 (by decide)).1,
    (C7_ctor_is_or Macros.all 0x1F80 (by decide)).2 7 (by decide) (by decide)⟩

/-- C8: in every build environment and for every 32-bit register value `r`, the
register after destruction is exactly `r` ANDed with the 32-bit complement of
`0x8000` and with the 32-bit complement of `0x0040`, and every bit other than
bit 15 and bit 6 is as in `r`. -/
theorem C8_dtor_is_and_not (m : Macros) (r : Nat) (hr : r < 2 ^ 32) :
    Undenormal.dtor m r = r &&& (2 ^ 32 - 1 - 0x8000) &&& (2 ^ 32 - 1 - 0x0040) ∧
    ∀ i : Nat, i ≠ 15 → i ≠ 6 → (Undenormal.dtor m r).testBit i = r.testBit i :=
  ⟨dtor_closed m r, fun i h15 h6 => dtor_frame m r hr i h15 h6⟩

/-- C8 on the all-ones register: destruction gives `0xFFFF7FBF`, and bit 31 is
untouched. -/
theorem C8_dtor_is_and_not_witness :
    (0xFFFFFFFF : Nat) < 2 ^ 32 ∧
    Undenormal.dtor Macros.none 0xFFFFFFFF
      = 0xFFFFFFFF &&& (2 ^ 32 - 1 - 0x8000) &&& (2 ^ 32 - 1 - 0x0040) ∧
    (Undenormal.dtor Macros.none 0xFFFFFFFF).testBit 31 = Nat.testBit 0xFFFFFFFF 31 :=
  ⟨by decide, (C8_dtor_is_and_not Macros.none 0xFFFFFFFF (by decide)).1,
    (C8_dtor_is_and_not Macros.none 0xFFFFFFFF (by decide)).2 31 (by decide) (by decide)⟩

/-! ## The two build-time backends -/

/-- C9: the macro path and the raw path agree.  Each of the four macro steps
leaves the register that the raw step it replaces leaves, and the constructor
and the destructor leave the same register in any two build environments, that
is in every combination of defined macros. -/
theorem C9_backends_agree (m : Macros) (r : Nat) :
    _MM_SET_FLUSH_ZERO_MODE _MM_FLUSH_ZERO_ON r
      = _mm_setcsr (_mm_getcsr r ||| toUnsigned Undenormal.maskFTZ) r ∧
    _MM_SET_DENORMALS_ZERO_MODE _MM_DENORMALS_ZERO_ON r
      = _mm_setcsr (_mm_getcsr r ||| toUnsigned Undenormal.maskDAZ) r ∧
    _MM_SET_FLUSH_ZERO_MODE _MM_FLUSH_ZERO_OFF r
      = _mm_setcsr (_mm_getcsr r &&& toUnsigned (~~~ Undenormal.maskFTZ)) r ∧
    _MM_SET_DENORMALS_ZERO_MODE _MM_DENORMALS_ZERO_OFF r
      = _mm_setcsr (_mm_getcsr r &&& toUnsigned (~~~ Undenormal.maskDAZ)) r ∧
    ∀ m2 : Macros,
      Undenormal.Undenormal m r = Undenormal.Undenormal m2 r ∧
      Undenormal.dtor m r = Undenormal.dtor m2 r := by
  refine ⟨?_, ?_, ?_, ?_, ?_⟩
  · apply Nat.eq_of_testBit_eq; intro i
    rw [testBit_ftz_on_helper, testBit_ftz_on_raw]
  · apply Nat.eq_of_testBit_eq; intro i
    rw [testBit_daz_on_helper, testBit_daz_on_raw]
  · apply Nat.eq_of_testBit_eq; intro i
    rw [testBit_ftz_off_helper, testBit_ftz_off_raw]
  · apply Nat.eq_of_testBit_eq; intro i
    rw [testBit_daz_off_helper, testBit_daz_off_raw]
  · intro m2
    constructor
    · apply Nat.eq_of_testBit_eq; intro i
      rw [testBit_ctor, testBit_ctor]
    · apply Nat.eq_of_testBit_eq; intro i
      rw [testBit_dtor, testBit_dtor]

/-! ## Idempotence -/

/-- C10: construction is idempotent: in every build environment and for every
register value `r`, a second construction on the register left by a first one
leaves that register unchanged. -/
theorem C10_ctor_idempotent (m : Macros) (r : Nat) :
    Undenormal.Undenormal m (Undenormal.Undenormal m r) = Undenormal.Undenormal m r := by
  apply Nat.eq_of_testBit_eq
  intro i
  rw [testBit_ctor m (Undenormal.Undenormal m r), testBit_ctor m r]
  generalize decide (i < 32) = a
  generalize r.testBit i = b
  generalize decide (i = 15) = c
  generalize decide (i = 6) = d
  cases a <;> cases b <;> cases c <;> cases d <;> rfl

/-! ## Sequences of operations: helper facts -/

theorem runOps_append (m : Macros) (xs ys : List GuardOp) (csr : Nat) :
    runOps m (xs ++ ys) csr = runOps m ys (runOps m xs csr) := by
  induction xs generalizing csr with
  | nil => rfl
  | cons x xs ih => exact ih (x.apply m csr)

/-- A non-empty sequence ends with the effect of its last operation. -/
theorem runOps_last (m : Macros) (ops : List GuardOp) (h : ops ≠ []) (csr : Nat) :
    runOps m ops csr = (ops.getLast h).apply m (runOps m ops.dropLast csr) := by
  have hsplit : ops.dropLast ++ [ops.getLast h] = ops := List.dropLast_append_getLast h
  calc runOps m ops csr
      = runOps m (ops.dropLast ++ [ops.getLast h]) csr := by rw [hsplit]
    _ = runOps m [ops.getLast h] (runOps m ops.dropLast csr) := runOps_append m _ _ csr
    _ = (ops.getLast h).apply m (runOps m ops.dropLast csr) := rfl

theorem apply_lt (m : Macros) (op : GuardOp) (csr : Nat) : op.apply m csr < 2 ^ 32 := by
  cases op
  · exact ctor_lt m csr
  · exact dtor_lt m csr

theorem apply_frame (m : Macros) (op : GuardOp) (r : Nat) (hr : r < 2 ^ 32) (i : Nat)
    (h15 : i ≠ 15) (h6 : i ≠ 6) : (op.apply m r).testBit i = r.testBit i := by
  cases op
  · exact ctor_frame m r hr i h15 h6
  · exact dtor_frame m r hr i h15 h6

/-- No sequence of guard operations changes a bit other than 15 and 6. -/
theorem runOps_frame (m : Macros) (ops : List GuardOp) (r : Nat) (hr : r < 2 ^ 32) (i : Nat)
    (h15 : i ≠ 15) (h6 : i ≠ 6) : (runOps m ops r).testBit i = r.testBit i := by
  induction ops generalizing r with
  | nil => rfl
  | cons op ops ih =>
    calc (runOps m (op :: ops) r).testBit i
        = (runOps m ops (op.apply m r)).testBit i := rfl
      _ = (op.apply m r).testBit i := ih (op.apply m r) (apply_lt m op r)
      _ = r.testBit i := apply_frame m op r hr i h15 h6

/-- Bits of the mask `0xFFFF7FBF`, which selects the bits other than 15 and 6
of a 32-bit value. -/
theorem testBit_0xFFFF7FBF (i : Nat) :
    Nat.testBit 0xFFFF7FBF i = (decide (i < 32) && !decide (i = 15) && !decide (i = 6)) := by
  have hmask : (0xFFFF7FBF : Nat) = 4294967295 ^^^ 0x8000 ^^^ 0x0040 := by decide
  rw [hmask, Nat.testBit_xor, Nat.testBit_xor, testBit_0xFFFFFFFF, testBit_0x8000,
    testBit_0x0040]
  by_cases hi : i < 32
  · by_cases h15 : i = 15
    · subst h15; simp
    · by_cases h6 : i = 6
      · subst h6; simp
      · simp [hi, h15, h6]
  · have h15 : i ≠ 15 := by omega
    have h6 : i ≠ 6 := by omega
    simp [hi, h15, h6]

/-- Bits of the mask `0x8040` of the two controlled bits. -/
theorem testBit_0x8040 (i : Nat) :
    Nat.testBit 0x8040 i = (decide (i = 15) || decide (i = 6)) := by
  have hmask : (0x8040 : Nat) = 0x8000 ||| 0x0040 := by decide
  rw [hmask, Nat.testBit_or, testBit_0x8000, testBit_0x0040]

/-- The two controlled bits left by an operation do not depend on the register
it ran on. -/
theorem apply_controlled_bits (m : Macros) (op : GuardOp) (x y : Nat) :
    op.apply m x &&& 0x8040 = op.apply m y &&& 0x8040 := by
  apply Nat.eq_of_testBit_eq
  intro i
  rw [Nat.testBit_and, Nat.testBit_and, testBit_0x8040]
  cases op
  · show ((Undenormal.Undenormal m x).testBit i && _) = ((Undenormal.Undenormal m y).testBit i && _)
    rw [testBit_ctor, testBit_ctor]
    by_cases h15 : i = 15
    · subst h15; simp
    · by_cases h6 : i = 6
      · subst h6; simp
      · simp [h15, h6]
  · show ((Undenormal.dtor m x).testBit i && _) = ((Undenormal.dtor m y).testBit i && _)
    rw [testBit_dtor, testBit_dtor]
    by_cases h15 : i = 15
    · subst h15; simp
    · by_cases h6 : i = 6
      · subst h6; simp
      · simp [h15, h6]

/-- Two registers that agree under the mask `0xFFFF7FBF` agree on every bit
below 32 other than 15 and 6. -/
theorem testBit_eq_of_masked_eq (r1 r2 : Nat) (h : r1 &&& 0xFFFF7FBF = r2 &&& 0xFFFF7FBF)
    (i : Nat) (hi : i < 32) (h15 : i ≠ 15) (h6 : i ≠ 6) : r1.testBit i = r2.testBit i := by
  have h1 := congrArg (fun x => Nat.testBit x i) h
  simpa [Nat.testBit_and, testBit_0xFFFF7FBF, hi, h15, h6] using h1

/-! ## Arbitrary sequences of constructions and destructions -/

/-- C13: in every build environment, for every initial register value and every
non-empty sequence of guard constructions and destructions, the two controlled
bits after the sequence are both on when the last operation is a construction
and both off when it is a destruction; any other non-empty sequence with the
same last operation, run from any other initial register, leaves the same two
bits. -/
theorem C13_bits_follow_last_op (m : Macros) (r : Nat) (ops : List GuardOp)
    (h : ops ≠ []) :
    (ops.getLast h = GuardOp.construct →
      ftzOn (runOps m ops r) ∧ dazOn (runOps m ops r)) ∧
    (ops.getLast h = GuardOp.destruct →
      ftzOff (runOps m ops r) ∧ dazOff (runOps m ops r)) ∧
    (∀ (r2 : Nat) (ops2 : List GuardOp) (h2 : ops2 ≠ []),
      ops2.getLast h2 = ops.getLast h →
      runOps m ops2 r2 &&& 0x8040 = runOps m ops r &&& 0x8040) := by
  refine ⟨?_, ?_, ?_⟩
  · intro hlast
    rw [runOps_last m ops h r, hlast]
    exact ⟨ctor_ftzOn m _, ctor_dazOn m _⟩
  · intro hlast
    rw [runOps_last m ops h r, hlast]
    exact ⟨dtor_ftzOff m _, dtor_dazOff m _⟩
  · intro r2 ops2 h2 hlast
    rw [runOps_last m ops h r, runOps_last m ops2 h2 r2, hlast]
    exact apply_controlled_bits m _ _ _

/-- C13 on the sequences construct, construct, destruct (from `0x1F80`) and
destruct (from `0x9FC0`): both end with a destruction, the bits are off after
the first and the two results agree under `0x8040`. -/
theorem C13_bits_follow_last_op_witness :
    [GuardOp.construct, GuardOp.construct, GuardOp.destruct] ≠ [] ∧
    (ftzOff (runOps Macros.none
        [GuardOp.construct, GuardOp.construct, GuardOp.destruct] 0x1F80) ∧
      dazOff (runOps Macros.none
        [GuardOp.construct, GuardOp.construct, GuardOp.destruct] 0x1F80)) ∧
    runOps Macros.none [GuardOp.destruct] 0x9FC0 &&& 0x8040
      = runOps Macros.none
          [GuardOp.construct, GuardOp.construct, GuardOp.destruct] 0x1F80 &&& 0x8040 :=
  ⟨by decide,
    (C13_bits_follow_last_op Macros.none 0x1F80
      [GuardOp.construct, GuardOp.construct, GuardOp.destruct] (by decide)).2.1 rfl,
    (C13_bits_follow_last_op Macros.none 0x1F80
      [GuardOp.construct, GuardOp.construct, GuardOp.destruct] (by decide)).2.2
      0x9FC0 [GuardOp.destruct] (by decide) rfl⟩

/-- C14: in every build environment, for every initial 32-bit register value
`r` and every sequence of guard constructions and destructions, after each
number `k` of steps of the sequence every bit other than bit 15 (`0x8000`) and
bit 6 (`0x0040`) is as in `r`; said with a mask, the register agrees with `r`
under `0xFFFF7FBF`. -/
theorem C14_other_bits_never_change (m : Macros) (r : Nat) (hr : r < 2 ^ 32)
    (ops : List GuardOp) (k : Nat) :
    (∀ i : Nat, i ≠ 15 → i ≠ 6 → (runOps m (ops.take k) r).testBit i = r.testBit i) ∧
    runOps m (ops.take k) r &&& 0xFFFF7FBF = r &&& 0xFFFF7FBF := by
  have hbits : ∀ i : Nat, i ≠ 15 → i ≠ 6 →
      (runOps m (ops.take k) r).testBit i = r.testBit i :=
    fun i h15 h6 => runOps_frame m (ops.take k) r hr i h15 h6
  refine ⟨hbits, ?_⟩
  apply Nat.eq_of_testBit_eq
  intro i
  rw [Nat.testBit_and, Nat.testBit_and, testBit_0xFFFF7FBF]
  by_cases h15 : i = 15
  · subst h15; simp
  · by_cases h6 : i = 6
    · subst h6; simp
    · rw [hbits i h15 h6]

/-- C14 on `0xFFFF9F80` and the sequence construct, construct, destruct,
destruct: after two steps bit 31 and everything under `0xFFFF7FBF` is as at the
start. -/
theorem C14_other_bits_never_change_witness :
    (0xFFFF9F80 : Nat) < 2 ^ 32 ∧
    (runOps Macros.all
      ([GuardOp.construct, GuardOp.construct, GuardOp.destruct, GuardOp.destruct].take 2)
      0xFFFF9F80).testBit 31 = Nat.testBit 0xFFFF9F80 31 ∧
    runOps Macros.all
      ([GuardOp.construct, GuardOp.construct, GuardOp.destruct, GuardOp.destruct].take 2)
      0xFFFF9F80 &&& 0xFFFF7FBF = 0xFFFF9F80 &&& 0xFFFF7FBF :=
  ⟨by decide,
    (C14_other_bits_never_change Macros.all 0xFFFF9F80 (by decide)
      [GuardOp.construct, GuardOp.construct, GuardOp.destruct, GuardOp.destruct] 2).1 31
      (by decide) (by decide),
    (C14_other_bits_never_change Macros.all 0xFFFF9F80 (by decide)
      [GuardOp.construct, GuardOp.construct, GuardOp.destruct, GuardOp.destruct] 2).2⟩

/-! ## Independence from the initial values of the controlled bits -/

/-- C15: in every build environment, two register values that agree on every
bit other than `0x8000` and `0x0040` (they agree under the mask `0xFFFF7FBF`)
are taken to the same register by the constructor, and to the same register by
the destructor. -/
theorem C15_result_ignores_controlled_bits (m : Macros) (r1 r2 : Nat)
    (h : r1 &&& 0xFFFF7FBF = r2 &&& 0xFFFF7FBF) :
    Undenormal.Undenormal m r1 = Undenormal.Undenormal m r2 ∧
    Undenormal.dtor m r1 = Undenormal.dtor m r2 := by
  constructor
  · apply Nat.eq_of_testBit_eq
    intro i
    rw [testBit_ctor, testBit_ctor]
    by_cases hi : i < 32
    · by_cases h15 : i = 15
      · subst h15; simp
      · by_cases h6 : i = 6
        · subst h6; simp
        · rw [testBit_eq_of_masked_eq r1 r2 h i hi h15 h6]
    · simp [hi]
  · apply Nat.eq_of_testBit_eq
    intro i
    rw [testBit_dtor, testBit_dtor]
    by_cases hi : i < 32
    · by_cases h15 : i = 15
      · subst h15; simp
      · by_cases h6 : i = 6
        · subst h6; simp
        · rw [testBit_eq_of_masked_eq r1 r2 h i hi h15 h6]
    · simp [hi]

/-- C15 on `0x1F80` (both bits off) and `0x9FC0` (both bits on), which agree
on every other bit. -/
theorem C15_result_ignores_controlled_bits_witness :
    (0x1F80 &&& 0xFFFF7FBF = 0x9FC0 &&& 0xFFFF7FBF) ∧
    Undenormal.Undenormal Macros.none 0x1F80 = Undenormal.Undenormal Macros.none 0x9FC0 ∧
    Undenormal.dtor Macros.none 0x1F80 = Undenormal.dtor Macros.none 0x9FC0 :=
  ⟨by decide, C15_result_ignores_controlled_bits Macros.none 0x1F80 0x9FC0 (by decide)⟩

end RCH
